import Mathlib

/-!
Verification development for the BIG_PLAYER_VOLUME-in-SQZ trading feed core:
a shallow embedding of the connection lifecycle, subscription registry,
wire-decoder/read-loop, bar aggregator and fan-out broadcaster, with the
spec's testable properties settled against it.

Source files embedded:
- src/trading_app/pubsub/wss_handler.py (connection manager, registry, decoder)
- src/trading_app/main.py (fan-out broadcaster, pending-subscription queue wiring)
- the Bar Aggregator (process_live_feed) is imported by wss_handler.py but its
  definition is absent from the repository, so it is modelled from spec section 4.2.
-/

namespace TradingApp

/-- Result of evaluating a piece of Python code: either a value or a raised
exception carried as its message string. -/
inductive PyResult (α : Type) where
  | ok (val : α)
  | exn (msg : String)
deriving DecidableEq

/-- Outbound control message, wss_handler.py lines 142-146 and 195-202:
a guid, the method `sub`, the subscription mode and the instrument key list. -/
structure ControlMsg where
  guid : String
  method : String
  mode : String
  instrumentKeys : List String
deriving DecidableEq

/- ## Subscription Registry (wss_handler.py, ACTIVE_SUBSCRIPTIONS) -/

/-- wss_handler.py line 46. -/
def MAX_RECONNECT_ATTEMPTS : Nat := 5

/-- Python semantics of the expression `ACTIVE_SUBSCRIPTIONS.keys()` at
wss_handler.py line 145: `ACTIVE_SUBSCRIPTIONS` is a `set` (line 43:
`ACTIVE_SUBSCRIPTIONS = set()`), and Python `set` objects have no `keys`
method, so the attribute access raises `AttributeError`. -/
def pySetKeys (_s : Finset String) : PyResult (List String) :=
  .exn "AttributeError: set object has no attribute keys"

/-- wss_handler.py lines 136-146, the block run right after a connection is
established: when the registry is non-empty, build and send the
resubscribe-all message whose instrument list is `list(ACTIVE_SUBSCRIPTIONS.keys())`.
Returns the control messages actually sent and the exception raised, if any.
An exception raised while building the payload aborts before any send. -/
def resubscribeOnConnect (subs : Finset String) : List ControlMsg × Option String :=
  if subs = ∅ then ([], none)
  else
    match pySetKeys subs with
    | .ok ks => ([⟨"resub-guid", "sub", "ltpc", ks⟩], none)
    | .exn e => ([], some e)

/-- Result of one call to `subscribe_to_symbol` (wss_handler.py lines 175-207):
the registry afterwards, the subscribe control message sent (if any), and the
value the Python function returns, projected onto the booleans — every path of
the source ends in a bare `return` or falls off the end, i.e. returns `None`,
so this field is `none` on every path. -/
structure SubscribeResult where
  registry : Finset String
  sent : Option ControlMsg
  ret : Option Bool
deriving DecidableEq

/-- wss_handler.py lines 180-207, the body of `subscribe_to_symbol`
downstream of the lookup, parameterized on the lookup's outcome (`lookup`):
on lookup failure (`None`) return; if the key is already in
`ACTIVE_SUBSCRIPTIONS` return; otherwise add it, then — only if the client is
connected — try to send the subscribe control message, swallowing send
failures (lines 206-207) so the key stays registered either way.
`connected` models `WEBSOCKET_CLIENT and WEBSOCKET_CLIENT.open`;
`sendOk` models whether `WEBSOCKET_CLIENT.send` succeeds.
NOTE: in the program the lookup call itself, at line 179, raises `TypeError`
on every invocation (see `get_instrument_key_call` and
`subscribe_to_symbol_run` below), so these paths are reachable only under a
lookup that returns — the call the function's own code and its callers
intend. -/
def subscribe_to_symbol (lookup : String → Option String) (connected : Bool)
    (sendOk : Bool) (registry : Finset String) (symbol : String) : SubscribeResult :=
  match lookup symbol with
  | none => ⟨registry, none, none⟩
  | some key =>
    if key ∈ registry then ⟨registry, none, none⟩
    else
      let registry2 := insert key registry
      if !connected then ⟨registry2, none, none⟩
      else if sendOk then
        ⟨registry2, some ⟨"sub-" ++ symbol, "sub", "ltpc", [key]⟩, none⟩
      else ⟨registry2, none, none⟩

/-- instrument_loader.py line 90: `def get_instrument_key(db, app_id, symbol)`
— the in-repo lookup declares three parameters. -/
def get_instrument_key_paramCount : Nat := 3

/-- wss_handler.py line 179: `get_instrument_key(symbol)` passes one
argument. -/
def get_instrument_key_callArgCount : Nat := 1

/-- The Python call `get_instrument_key(symbol)` at wss_handler.py line 179:
one argument against the three parameters of instrument_loader.py line 90
raises `TypeError` before the lookup body runs. -/
def get_instrument_key_call : PyResult (Option String) :=
  .exn "TypeError: get_instrument_key missing 2 required positional arguments"

/-- One invocation of `subscribe_to_symbol` as the program actually executes
(wss_handler.py lines 175-207): the lookup call at line 179 raises
`TypeError` outside any try block, so the coroutine raises before reaching
the membership test — the registry is untouched, no subscribe message is
sent, and no value is returned. Were the lookup call to return a value
(`.ok`), the rest of the body would run as `subscribe_to_symbol`. -/
def subscribe_to_symbol_run (connected : Bool) (sendOk : Bool)
    (registry : Finset String) (symbol : String) :
    Finset String × Option ControlMsg × PyResult (Option Bool) :=
  match get_instrument_key_call with
  | .ok r =>
    let res := subscribe_to_symbol (fun _ => r) connected sendOk registry symbol
    (res.registry, res.sent, .ok res.ret)
  | .exn e => (registry, none, .exn e)

/-- The operations of the program that touch `ACTIVE_SUBSCRIPTIONS`
(the only sites in src are wss_handler.py lines 136-145 — reads for the
resubscribe payload — and lines 184-187 — membership test and add inside
`subscribe_to_symbol`). -/
inductive RegistryOp where
  | subscribe (lookup : String → Option String) (connected : Bool)
      (sendOk : Bool) (symbol : String)
  | connectResubscribe

/-- Effect of each program operation on the registry. `connectResubscribe`
(`resubscribeOnConnect`) only reads the registry — its result type carries no
new registry — so the registry is unchanged. -/
def applyOp (registry : Finset String) : RegistryOp → Finset String
  | .subscribe lookup connected sendOk symbol =>
      (subscribe_to_symbol lookup connected sendOk registry symbol).registry
  | .connectResubscribe => registry

/- ## Connection retry loop (wss_handler.py, start_wss_connection) -/

/-- What one iteration of the `while RECONNECT_ATTEMPTS < MAX_RECONNECT_ATTEMPTS`
loop of `start_wss_connection` (lines 110-171) runs into:
`transient` — the connect failed or a generic exception was caught
(lines 159-162); `connectedThenDropped` — the connect succeeded, so
`RECONNECT_ATTEMPTS` was reset to 0 (line 132), and the read loop later died
with an exception; `apiError` — `upstox_client.rest.ApiException` was raised
during setup (line 156), which `break`s out of the loop (line 158).
In every case the `finally` block (lines 165-168) increments
`RECONNECT_ATTEMPTS` before the loop condition is re-checked. -/
inductive AttemptOutcome where
  | transient
  | connectedThenDropped
  | apiError
deriving DecidableEq

/-- The retry loop of `start_wss_connection`, counting the connection attempts
it issues. `attempts` is the current value of `RECONNECT_ATTEMPTS`; the list
supplies the outcome of each successive attempt (an exhausted list means no
further outcome is observed). On `connectedThenDropped` the counter was reset
to 0 on success and then incremented by the `finally`, so the loop continues
with 1; on `apiError` the `finally` increments and the `break` stops the loop. -/
def connLoop (attempts : Nat) : List AttemptOutcome → Nat
  | [] => 0
  | o :: os =>
    if attempts < MAX_RECONNECT_ATTEMPTS then
      match o with
      | .transient => 1 + connLoop (attempts + 1) os
      | .connectedThenDropped => 1 + connLoop 1 os
      | .apiError => 1
    else 0

/-- Body of the authorize response, wss_handler.py line 71:
`auth_response.get("data", {}).get("authorizedRedirectUri")`. -/
structure AuthBody where
  authorizedRedirectUri : Option String
deriving DecidableEq

/-- Outcome of the HTTP round trip inside `get_market_data_feed_authorize_url`
(wss_handler.py lines 59-88): a response with a status code and parsed body,
or an exception from the request itself. -/
inductive HttpResult where
  | response (status : Nat) (body : AuthBody)
  | requestError (msg : String)
deriving DecidableEq

/-- wss_handler.py lines 50-88, `get_market_data_feed_authorize_url`: on a 200
response return the `authorizedRedirectUri` (or `False` — here `none` — when
the field is missing, lines 76-78); on any other status — including 401 for an
invalid credential — print and return `False` (lines 82-84); on a request
exception print and return `False` (lines 86-88). The function never raises. -/
def get_market_data_feed_authorize_url (r : HttpResult) : Option String :=
  match r with
  | .response status body =>
    if status = 200 then
      match body.authorizedRedirectUri with
      | some url => some url
      | none => none
    else none
  | .requestError _ => none

/-- How one iteration of `start_wss_connection` classifies, given the
authorize result (line 117) and what the transport would then do: when the
authorize helper returned `False` (`none`), `websockets.connect(False, ...)`
(line 130) raises a generic exception that is caught by the
`except Exception` handler at line 161 — a transient outcome. The
`except ApiException: break` at line 156 can only fire for an exception raised
by the upstox SDK calls, which `get_market_data_feed_authorize_url` never
raises. -/
def attemptOutcome (wss_url : Option String) (transport : AttemptOutcome) :
    AttemptOutcome :=
  match wss_url with
  | none => .transient
  | some _ => transport

/- ## Wire decoder and read loop (wss_handler.py lines 31-40 and 148-154) -/

/-- The per-instrument quote batch carried under the `feeds` key of a decoded
frame; the read loop only passes it through to `process_live_feed`, so its
per-instrument payload is summarised as one value per instrument key. -/
abbrev Feeds := List (String × Int)

/-- `MessageToDict(feed_response)` (wss_handler.py line 37): a JSON-like dict
that may or may not carry a `feeds` key. -/
structure DecodedMsg where
  feeds : Option Feeds
deriving DecidableEq

/-- wss_handler.py lines 31-40, `decode_protobuf_message`: parse the binary
buffer with the protobuf schema (`parseFromString`, the external
`FeedResponse.ParseFromString`/`MessageToDict` pipeline); any exception is
caught, logged and turned into `None` (lines 38-40) — the function never
raises. -/
def decode_protobuf_message (parseFromString : List Nat → Except String DecodedMsg)
    (buffer : List Nat) : Option DecodedMsg :=
  match parseFromString buffer with
  | .ok m => some m
  | .error _ => none

/-- One frame of the read loop body (wss_handler.py lines 150-154): decode the
received message; `if decoded_data and 'feeds' in decoded_data:` pass
`decoded_data['feeds']` to `process_live_feed`, otherwise drop the frame. -/
def processFrame (parseFromString : List Nat → Except String DecodedMsg)
    (frame : List Nat) : Option Feeds :=
  match decode_protobuf_message parseFromString frame with
  | some m => m.feeds
  | none => none

/-- Python name resolution of `broadcast_callback` in the expression
`process_live_feed(decoded_data['feeds'], broadcast_callback)` at
wss_handler.py line 154: the name is bound nowhere in the module —
`start_wss_connection`'s only parameter is `access_token` (line 93) and no
global of that name exists — so evaluating the argument raises `NameError`
before `process_live_feed` is called. -/
def broadcast_callback_lookup : PyResult Unit :=
  .exn "NameError: name broadcast_callback is not defined"

/-- The read loop of `start_wss_connection` (wss_handler.py lines 148-154)
run over a finite sequence of received frames: decode each frame; a frame
that fails to decode or carries no `feeds` key is dropped and the loop
continues (lines 151-152); for a feeds-bearing frame the loop evaluates
`process_live_feed(decoded_data['feeds'], broadcast_callback)` (line 154),
whose argument `broadcast_callback` raises `NameError`, terminating the
loop. Returns the feeds batches successfully handed to `process_live_feed`,
the pending-subscription queue — passed through untouched on every path,
since no code in the loop body reads `subscription_queue`
(`start_wss_connection`, line 93, does not even take the queue as a
parameter) — and the exception that ended the loop, if any. -/
def readLoop (parseFromString : List Nat → Except String DecodedMsg) :
    List (List Nat) → List String → List Feeds × List String × Option String
  | [], sub_queue => ([], sub_queue, none)
  | frame :: frames, sub_queue =>
    match processFrame parseFromString frame with
    | none => readLoop parseFromString frames sub_queue
    | some feeds =>
      match broadcast_callback_lookup with
      | .ok _ =>
        let r := readLoop parseFromString frames sub_queue
        (feeds :: r.1, r.2.1, r.2.2)
      | .exn e => ([], sub_queue, some e)

/-- main.py line 93: `def start_wss_connection(access_token)` in
wss_handler.py declares exactly one parameter. -/
def start_wss_connection_paramCount : Nat := 1

/-- main.py line 201:
`start_wss_connection(access_token, broadcast_callback, sub_queue)` passes
three arguments. -/
def start_wss_thread_callArgCount : Nat := 3

/-- Python call semantics for a plain `def`: the call succeeds only when the
argument count matches the parameter count; otherwise it raises `TypeError`. -/
def pyArityOk (params args : Nat) : Bool := params == args

/-- A concrete protobuf parse pipeline used to evaluate the read loop on
concrete frames: the frame `[0]` is corrupted (fails to parse), every other
frame decodes to a message with one instrument under `feeds`. -/
def sampleParse : List Nat → Except String DecodedMsg := fun b =>
  if b = [0] then .error "corrupt"
  else .ok ⟨some [("NSE_EQ|INE002A01018", 100)]⟩

/- ## Fan-out broadcaster (main.py lines 29-102) -/

/-- A downstream client connection handle, identified abstractly. -/
abbrev ClientId := Nat

/-- `WEBSOCKET_CLIENTS` (main.py line 29): a dict mapping each connected
client to the set of symbols it has subscribed to. -/
abbrev ClientMap := List (ClientId × Finset String)

/-- Python truthiness of `message.get("symbol")` (main.py lines 40 and 45):
a missing key yields `None` and an empty string is falsy, so both select the
general-broadcast branch. -/
def truthy : Option String → Option String
  | none => none
  | some s => if s = "" then none else some s

/-- The clients for which main.py lines 45-53 append a `client.send` task:
with a truthy symbol, exactly the clients whose subscription set contains it
(line 48); otherwise every client (line 52). -/
def broadcast_targets (clients : ClientMap) (symbol : Option String) :
    List ClientId :=
  match truthy symbol with
  | some s => (clients.filter (fun p => decide (s ∈ p.2))).map Prod.fst
  | none => clients.map Prod.fst

/-- Result of `broadcast_message`: the clients whose send completed, the
client map afterwards, and whether an exception propagates out of the
`await asyncio.gather(*tasks)` (line 56). -/
structure BroadcastResult where
  delivered : List ClientId
  clientsAfter : ClientMap
  raised : Bool
deriving DecidableEq

/-- main.py lines 32-56, `broadcast_message`: return at once on an empty
client map (line 37); otherwise build one send task per target and await
`asyncio.gather` on them. `gather` without `return_exceptions` schedules every
task — a failing send does not cancel or block the others, each of which still
completes according to its own `sendOk` — and re-raises the first failure to
the awaiting caller. The function never mutates `WEBSOCKET_CLIENTS`, so the
client map comes back unchanged. -/
def broadcast_message (clients : ClientMap) (symbol : Option String)
    (sendOk : ClientId → Bool) : BroadcastResult :=
  if clients = [] then ⟨[], clients, false⟩
  else
    ⟨(broadcast_targets clients symbol).filter sendOk,
     clients,
     (broadcast_targets clients symbol).any (fun c => !(sendOk c))⟩

/-- main.py lines 98-101, the `finally` of `websocket_handler`: on client
disconnect, `del WEBSOCKET_CLIENTS[websocket]` removes that client's
registration — the only removal site for the client map in src. -/
def websocket_handler_cleanup (clients : ClientMap) (c : ClientId) : ClientMap :=
  clients.filter (fun p => p.1 != c)

/- ## Bar Aggregator

`process_live_feed` is imported at wss_handler.py line 28 from
`trading_app.pubsub.data_handler`, but no definition of it exists anywhere
under src/ (data_handler.py only contains Firestore storage helpers). The
aggregation step is therefore modelled from the spec. -/

/-- Modelled from the spec: a Tick per section 3 — `{instrument_id,
last_price, last_quantity, event_time}` for one fixed instrument (the claims
quantify over the ticks of a single instrument, and per-instrument states are
independent), with the event time in epoch milliseconds as produced by the
Wire Decoder (section 4.1). -/
structure Tick where
  ltp : Int
  ltq : Nat
  ltt : Nat
deriving DecidableEq

/-- Modelled from the spec: the minute bucket of a tick — its event time
truncated to the start of its containing one-minute interval
(glossary; section 4.2 step 1). -/
def tickBucket (t : Tick) : Nat := t.ltt / 60000

/-- Modelled from the spec: a Bar per section 3 — bucket start plus
open/high/low/close and volume, for the single instrument under
consideration. -/
structure Bar where
  bucket_start : Nat
  «open» : Int
  high : Int
  low : Int
  close : Int
  volume : Nat
deriving DecidableEq

/-- Modelled from the spec: section 4.2 step 2 — a fresh bar seeded from one
tick, `open=high=low=close=price`, `volume=quantity`, `bucket_start=bucket`. -/
def seedBar (t : Tick) : Bar :=
  ⟨tickBucket t, t.ltp, t.ltp, t.ltp, t.ltp, t.ltq⟩

/-- Modelled from the spec: section 4.2 step 4 — update the open bar in place:
`high = max high price`, `low = min low price`, `close = price`,
`volume += quantity`. -/
def updateBar (b : Bar) (t : Tick) : Bar :=
  { b with
    high := max b.high t.ltp
    low := min b.low t.ltp
    close := t.ltp
    volume := b.volume + t.ltq }

/-- Modelled from the spec: section 4.2, `ingest(tick) -> Option<Bar>` for one
instrument — returns the new open-bar state and the just-completed bar when
this tick's minute bucket is strictly later than the open bucket (step 3),
seeds a fresh bar when no state exists (step 2), and otherwise updates in
place (steps 4-5: a same-bucket or earlier-bucket tick folds into the open
bar). -/
def ingest (st : Option Bar) (t : Tick) : Option Bar × Option Bar :=
  match st with
  | none => (some (seedBar t), none)
  | some b =>
    if b.bucket_start < tickBucket t then (some (seedBar t), some b)
    else (some (updateBar b t), none)

/-- Modelled from the spec: the Aggregator run over a finite tick sequence for
one instrument, returning the final open-bar state and the completed bars
emitted, in order. -/
def runAgg (st : Option Bar) : List Tick → Option Bar × List Bar
  | [] => (st, [])
  | t :: ts =>
    let p := ingest st t
    let q := runAgg p.1 ts
    (q.1, p.2.toList ++ q.2)

/-- The Bar invariant of spec section 3: `low ≤ open,close ≤ high`. -/
def barWellFormed (b : Bar) : Prop :=
  b.low ≤ b.«open» ∧ b.«open» ≤ b.high ∧ b.low ≤ b.close ∧ b.close ≤ b.high

instance (b : Bar) : Decidable (barWellFormed b) := by
  unfold barWellFormed; infer_instance

/-- Sum of the quantities of the ticks of `ts` whose minute bucket is `β`. -/
def bucketVolume (ts : List Tick) (β : Nat) : Nat :=
  ((ts.filter (fun t => tickBucket t == β)).map Tick.ltq).sum

lemma bucketVolume_cons (t : Tick) (ts : List Tick) (β : Nat) :
    bucketVolume (t :: ts) β =
      (if tickBucket t = β then t.ltq else 0) + bucketVolume ts β := by
  by_cases h : tickBucket t = β <;> simp [bucketVolume, List.filter_cons, h]

lemma bucketVolume_eq_zero (ts : List Tick) (β : Nat)
    (h : ∀ t ∈ ts, β < tickBucket t) : bucketVolume ts β = 0 := by
  induction ts with
  | nil => rfl
  | cons t ts ih =>
    rw [bucketVolume_cons]
    have h1 : tickBucket t ≠ β := by
      have := h t (List.mem_cons_self t ts); omega
    rw [if_neg h1, ih fun t' ht' => h t' (List.mem_cons_of_mem t ht')]

lemma seedBar_wellFormed (t : Tick) : barWellFormed (seedBar t) := by
  simp [barWellFormed, seedBar]

lemma updateBar_wellFormed (b : Bar) (t : Tick) (h : barWellFormed b) :
    barWellFormed (updateBar b t) := by
  obtain ⟨h1, h2, _, _⟩ := h
  exact ⟨le_trans (min_le_left _ _) h1, le_trans h2 (le_max_left _ _),
    min_le_right _ _, le_max_right _ _⟩

/-- Invariant of the Aggregator run started from an open bar `b`, over ticks
in non-decreasing event-time order whose buckets are all at least `b`'s: the
emitted bars carry strictly increasing buckets, are well-formed, and each
one's volume accounts exactly for `b`'s accumulated volume (when it is `b`'s
bucket that completes) plus the quantities of the processed ticks of its
bucket. -/
lemma runAgg_sorted_spec (ts : List Tick) : ∀ b : Bar,
    ts.Pairwise (fun a c => a.ltt ≤ c.ltt) →
    (∀ t ∈ ts, b.bucket_start ≤ tickBucket t) →
    barWellFormed b →
    ((runAgg (some b) ts).2.map Bar.bucket_start).Pairwise (· < ·) ∧
    ∀ e ∈ (runAgg (some b) ts).2,
      barWellFormed e ∧ b.bucket_start ≤ e.bucket_start ∧
      e.volume = (if e.bucket_start = b.bucket_start then b.volume else 0)
                   + bucketVolume ts e.bucket_start := by
  induction ts with
  | nil =>
    intro b _ _ _
    simp [runAgg]
  | cons t ts ih =>
    intro b hsort hge hwf
    obtain ⟨hrel, hsort'⟩ := List.pairwise_cons.mp hsort
    by_cases hb : b.bucket_start < tickBucket t
    · -- the tick opens a later bucket: `b` is completed and emitted,
      -- a fresh bar is seeded from `t`
      have hseedb : (seedBar t).bucket_start = tickBucket t := rfl
      have hseed_ge : ∀ t' ∈ ts, (seedBar t).bucket_start ≤ tickBucket t' :=
        fun t' ht' => Nat.div_le_div_right (hrel t' ht')
      obtain ⟨hpair, hall⟩ := ih (seedBar t) hsort' hseed_ge (seedBar_wellFormed t)
      have hrun : runAgg (some b) (t :: ts) =
          ((runAgg (some (seedBar t)) ts).1, b :: (runAgg (some (seedBar t)) ts).2) := by
        simp [runAgg, ingest, hb]
      rw [hrun]
      constructor
      · simp only [List.map_cons]
        refine List.pairwise_cons.mpr ⟨?_, hpair⟩
        intro β hβ
        obtain ⟨e, he, rfl⟩ := List.mem_map.mp hβ
        have h2 := (hall e he).2.1
        rw [hseedb] at h2
        omega
      · intro e he
        rcases List.mem_cons.mp he with rfl | he'
        · refine ⟨hwf, le_refl _, ?_⟩
          have hz : bucketVolume (t :: ts) e.bucket_start = 0 := by
            apply bucketVolume_eq_zero
            intro t' ht'
            rcases List.mem_cons.mp ht' with rfl | ht''
            · exact hb
            · have h3 := hseed_ge t' ht''
              rw [hseedb] at h3
              omega
          simp [hz]
        · obtain ⟨hwfe, hge2, hvol⟩ := hall e he'
          rw [hseedb] at hge2
          have hne : e.bucket_start ≠ b.bucket_start := by omega
          refine ⟨hwfe, by omega, ?_⟩
          rw [bucketVolume_cons, hvol, hseedb, if_neg hne]
          have hseedv : (seedBar t).volume = t.ltq := rfl
          rw [hseedv]
          by_cases hcase : e.bucket_start = tickBucket t
          · rw [if_pos hcase, if_pos hcase.symm]
            omega
          · rw [if_neg hcase, if_neg fun h => hcase h.symm]
            omega
    · -- same (or earlier) bucket: fold the tick into the open bar
      have heq : tickBucket t = b.bucket_start := by
        have := hge t (List.mem_cons_self t ts)
        omega
      have hupdb : (updateBar b t).bucket_start = b.bucket_start := rfl
      have hupd_ge : ∀ t' ∈ ts, (updateBar b t).bucket_start ≤ tickBucket t' :=
        fun t' ht' => hge t' (List.mem_cons_of_mem t ht')
      obtain ⟨hpair, hall⟩ :=
        ih (updateBar b t) hsort' hupd_ge (updateBar_wellFormed b t hwf)
      have hrun : runAgg (some b) (t :: ts) = runAgg (some (updateBar b t)) ts := by
        simp [runAgg, ingest, hb]
      rw [hrun]
      refine ⟨hpair, ?_⟩
      intro e he
      obtain ⟨hwfe, hge2, hvol⟩ := hall e he
      rw [hupdb] at hge2
      have hupdv : (updateBar b t).volume = b.volume + t.ltq := rfl
      refine ⟨hwfe, hge2, ?_⟩
      rw [bucketVolume_cons, hvol, hupdb, hupdv, heq]
      by_cases hcase : e.bucket_start = b.bucket_start
      · rw [if_pos hcase, if_pos hcase, if_pos hcase.symm]
        omega
      · rw [if_neg hcase, if_neg hcase, if_neg fun h => hcase h.symm]
        omega

lemma connLoop_of_ge (a : Nat) (os : List AttemptOutcome)
    (h : MAX_RECONNECT_ATTEMPTS ≤ a) : connLoop a os = 0 := by
  cases os with
  | nil => rfl
  | cons o os => simp [connLoop, Nat.not_lt.mpr h]

lemma connLoop_replicate_transient (k : Nat) :
    ∀ (a : Nat) (os : List AttemptOutcome),
      a + k = MAX_RECONNECT_ATTEMPTS →
      connLoop a (List.replicate k .transient ++ os) = k := by
  induction k with
  | zero =>
    intro a os h
    rw [List.replicate_zero, List.nil_append]
    exact connLoop_of_ge a os (by omega)
  | succ k ih =>
    intro a os h
    rw [List.replicate_succ, List.cons_append]
    have ha : a < MAX_RECONNECT_ATTEMPTS := by omega
    simp only [connLoop, if_pos ha]
    rw [ih (a + 1) os (by omega)]
    omega

lemma subscribe_registry_mem (lookup : String → Option String)
    (connected sendOk : Bool) (registry : Finset String) (symbol key : String)
    (h : lookup symbol = some key) :
    key ∈ (subscribe_to_symbol lookup connected sendOk registry symbol).registry := by
  simp only [subscribe_to_symbol, h]
  by_cases hmem : key ∈ registry
  · simp [hmem]
  · cases connected <;> cases sendOk <;>
      simp [hmem, Finset.mem_insert_self]

lemma readLoop_queue_unchanged
    (parseFromString : List Nat → Except String DecodedMsg)
    (frames : List (List Nat)) (sub_queue : List String) :
    (readLoop parseFromString frames sub_queue).2.1 = sub_queue := by
  induction frames with
  | nil => rfl
  | cons frame frames ih =>
    unfold readLoop
    cases processFrame parseFromString frame with
    | none => exact ih
    | some feeds => rfl

lemma subscribe_registry_subset (lookup : String → Option String)
    (connected sendOk : Bool) (registry : Finset String) (symbol : String) :
    registry ⊆ (subscribe_to_symbol lookup connected sendOk registry symbol).registry := by
  simp only [subscribe_to_symbol]
  cases hl : lookup symbol with
  | none => exact Finset.Subset.refl _
  | some key =>
    by_cases hmem : key ∈ registry
    · simp [hmem]
    · cases connected <;> cases sendOk <;> simp [hmem]

/- ## Claim theorems -/

/-- C1: the claim says a fresh successful connection with a non-empty registry
sends exactly one resubscribe-all message listing every registered instrument.
The code instead evaluates `ACTIVE_SUBSCRIPTIONS.keys()` on a Python `set`
(wss_handler.py line 145), which raises `AttributeError` before any send: for
every non-empty registry the connected block sends no message at all and
aborts with the exception. -/
theorem resubscribe_on_connect_never_sends (subs : Finset String)
    (h : subs ≠ ∅) :
    (resubscribeOnConnect subs).1 = [] ∧
    (resubscribeOnConnect subs).2 =
      some "AttributeError: set object has no attribute keys" := by
  simp [resubscribeOnConnect, pySetKeys, h]

/-- Witness for C1 at the registry holding one instrument key. -/
theorem resubscribe_on_connect_never_sends_witness :
    ({"NSE_EQ|INE002A01018"} : Finset String) ≠ ∅ ∧
    ((resubscribeOnConnect {"NSE_EQ|INE002A01018"}).1 = [] ∧
     (resubscribeOnConnect {"NSE_EQ|INE002A01018"}).2 =
       some "AttributeError: set object has no attribute keys") :=
  ⟨by decide, resubscribe_on_connect_never_sends _ (by decide)⟩

/-- C2: for ticks of one instrument delivered in non-decreasing event-time
order, the Aggregator emits at most one completed bar per minute bucket (the
emitted buckets are pairwise distinct), every emitted bar satisfies
`low ≤ open ≤ high` and `low ≤ close ≤ high`, and its volume is the sum of
the quantities of exactly the input ticks of its bucket. -/
theorem aggregator_bar_invariants (ticks : List Tick)
    (hsort : ticks.Pairwise (fun a c => a.ltt ≤ c.ltt)) :
    ((runAgg none ticks).2.map Bar.bucket_start).Pairwise (· ≠ ·) ∧
    ∀ e ∈ (runAgg none ticks).2,
      (e.low ≤ e.«open» ∧ e.«open» ≤ e.high ∧
       e.low ≤ e.close ∧ e.close ≤ e.high) ∧
      e.volume = bucketVolume ticks e.bucket_start := by
  cases ticks with
  | nil => simp [runAgg]
  | cons t ts =>
    obtain ⟨hrel, hsort'⟩ := List.pairwise_cons.mp hsort
    have hrun : runAgg none (t :: ts) = runAgg (some (seedBar t)) ts := by
      simp [runAgg, ingest]
    obtain ⟨hpair, hall⟩ := runAgg_sorted_spec ts (seedBar t) hsort'
      (fun t' ht' => Nat.div_le_div_right (hrel t' ht')) (seedBar_wellFormed t)
    rw [hrun]
    constructor
    · exact hpair.imp Nat.ne_of_lt
    · intro e he
      obtain ⟨hwfe, _, hvol⟩ := hall e he
      refine ⟨hwfe, ?_⟩
      rw [hvol, bucketVolume_cons]
      have hseedb : (seedBar t).bucket_start = tickBucket t := rfl
      have hseedv : (seedBar t).volume = t.ltq := rfl
      rw [hseedb, hseedv]
      by_cases hcase : e.bucket_start = tickBucket t
      · rw [if_pos hcase, if_pos hcase.symm]
      · rw [if_neg hcase, if_neg fun h => hcase h.symm]

/-- Witness for C2 on the scenario of spec section 8: ticks
`(100, 10, 10:00:05)`, `(101, 5, 10:00:40)`, `(99, 20, 10:01:05)` — the
completed bar for bucket `10:00` is `{open 100, high 101, low 100, close 101,
volume 15}`. -/
theorem aggregator_bar_invariants_witness :
    ([Tick.mk 100 10 5000, Tick.mk 101 5 40000, Tick.mk 99 20 65000].Pairwise
        (fun a c => a.ltt ≤ c.ltt)) ∧
    (((runAgg none
        [Tick.mk 100 10 5000, Tick.mk 101 5 40000, Tick.mk 99 20 65000]).2.map
          Bar.bucket_start).Pairwise (· ≠ ·) ∧
     ∀ e ∈ (runAgg none
        [Tick.mk 100 10 5000, Tick.mk 101 5 40000, Tick.mk 99 20 65000]).2,
       (e.low ≤ e.«open» ∧ e.«open» ≤ e.high ∧
        e.low ≤ e.close ∧ e.close ≤ e.high) ∧
       e.volume = bucketVolume
         [Tick.mk 100 10 5000, Tick.mk 101 5 40000, Tick.mk 99 20 65000]
         e.bucket_start) :=
  ⟨by decide, aggregator_bar_invariants _ (by decide)⟩

/-- C3: the claim says the connection manager's read/control loop polls
`subscription_queue` and registers each dequeued symbol. In the code the read
loop of `start_wss_connection` (wss_handler.py lines 148-154) contains no
queue access at all — it leaves any pending-subscription queue exactly as it
was — and the call `start_wss_connection(access_token, broadcast_callback,
sub_queue)` (main.py line 201) passes three arguments to a one-parameter
function, a `TypeError` under Python call semantics. -/
theorem read_loop_never_polls_queue :
    (∀ (parseFromString : List Nat → Except String DecodedMsg)
        (frames : List (List Nat)) (sub_queue : List String),
       (readLoop parseFromString frames sub_queue).2.1 = sub_queue) ∧
    pyArityOk start_wss_connection_paramCount start_wss_thread_callArgCount
      = false :=
  ⟨readLoop_queue_unchanged, rfl⟩

/-- C4: starting from `RECONNECT_ATTEMPTS = 0`, after exactly
`MAX_RECONNECT_ATTEMPTS` consecutive transient failures the retry loop of
`start_wss_connection` has issued exactly `MAX_RECONNECT_ATTEMPTS` connection
attempts and issues no further attempt, whatever outcomes would follow. -/
theorem reconnect_stops_after_max (os : List AttemptOutcome) :
    connLoop 0 (List.replicate MAX_RECONNECT_ATTEMPTS .transient ++ os) =
      MAX_RECONNECT_ATTEMPTS :=
  connLoop_replicate_transient MAX_RECONNECT_ATTEMPTS 0 os (by omega)

/-- C5: the claim says a decoding failure is non-fatal and a corrupted frame
followed by a valid frame results in the valid frame processed normally with
the loop not terminated. The decode half is true of the code —
`decode_protobuf_message` returns `None` instead of raising (wss_handler.py
lines 38-40) and the corrupted frame is dropped with the loop continuing to
the next frame — but processing the valid feeds-bearing frame executes line
154, whose argument `broadcast_callback` is bound nowhere in the module, so
the valid frame raises `NameError` and the read loop terminates: no feeds
batch is handed to `process_live_feed`. -/
theorem decode_failure_then_valid_frame_kills_loop
    (parseFromString : List Nat → Except String DecodedMsg)
    (corrupt valid : List Nat) (e : String) (m : DecodedMsg) (fs : Feeds)
    (sub_queue : List String)
    (hc : parseFromString corrupt = .error e)
    (hv : parseFromString valid = .ok m)
    (hfeeds : m.feeds = some fs) :
    decode_protobuf_message parseFromString corrupt = none ∧
    readLoop parseFromString [corrupt, valid] sub_queue =
      ([], sub_queue,
       some "NameError: name broadcast_callback is not defined") := by
  constructor
  · simp [decode_protobuf_message, hc]
  · simp [readLoop, processFrame, decode_protobuf_message, hc, hv, hfeeds,
      broadcast_callback_lookup]

/-- Witness for C5 with the concrete parse pipeline `sampleParse`, a corrupted
frame `[0]` and a valid feeds-bearing frame `[1]`. -/
theorem decode_failure_then_valid_frame_kills_loop_witness :
    decode_protobuf_message sampleParse [0] = none ∧
    readLoop sampleParse [[0], [1]] [] =
      ([], [], some "NameError: name broadcast_callback is not defined") :=
  decode_failure_then_valid_frame_kills_loop sampleParse [0] [1] "corrupt"
    ⟨some [("NSE_EQ|INE002A01018", 100)]⟩ [("NSE_EQ|INE002A01018", 100)] []
    rfl rfl rfl

/-- C6 counterexample: with clients 1 and 2 both subscribed to `X` and the
send to client 1 failing, `broadcast_message` still delivers to client 2 but
does not remove client 1 — its registration is still in the client map —
refuting the claim that the failing client's registration is removed by
`broadcast_message`. -/
theorem broadcast_failed_client_not_removed :
    (1, ({"X"} : Finset String)) ∈
      (broadcast_message [(1, {"X"}), (2, {"X"})] (some "X")
        (fun c => c != 1)).clientsAfter ∧
    (broadcast_message [(1, {"X"}), (2, {"X"})] (some "X")
        (fun c => c != 1)).delivered = [2] := by
  decide

/-- C6 amended: a send failure to one client neither blocks nor fails
delivery to the other clients — each client receives the event exactly when
it is a broadcast target and its own send succeeds, independently of the
others — but `broadcast_message` leaves the client map unchanged; a
registration is removed only by `websocket_handler`'s disconnect cleanup. -/
theorem broadcast_failure_isolation (clients : ClientMap)
    (symbol : Option String) (sendOk : ClientId → Bool) (c : ClientId) :
    (c ∈ (broadcast_message clients symbol sendOk).delivered ↔
      c ∈ broadcast_targets clients symbol ∧ sendOk c = true) ∧
    (broadcast_message clients symbol sendOk).clientsAfter = clients ∧
    c ∉ (websocket_handler_cleanup clients c).map Prod.fst := by
  refine ⟨?_, ?_, ?_⟩
  · by_cases h : clients = []
    · subst h
      cases hs : truthy symbol <;>
        simp [broadcast_message, broadcast_targets, hs]
    · simp [broadcast_message, h, List.mem_filter]
  · by_cases h : clients = [] <;> simp [broadcast_message, h]
  · intro hmem
    obtain ⟨p, hp, hpc⟩ := List.mem_map.mp hmem
    have hf := (List.mem_filter.mp hp).2
    rw [hpc] at hf
    simp at hf

/-- C7: an event with a (truthy) symbol filter is delivered exactly to the
registered clients whose subscription set contains that symbol, and an event
with no symbol filter is delivered to every registered client. -/
theorem broadcast_targeted_fanout (clients : ClientMap)
    (symbol : Option String) :
    (∀ s, truthy symbol = some s →
       (broadcast_message clients symbol (fun _ => true)).delivered =
         (clients.filter (fun p => decide (s ∈ p.2))).map Prod.fst) ∧
    (truthy symbol = none →
       (broadcast_message clients symbol (fun _ => true)).delivered =
         clients.map Prod.fst) := by
  constructor
  · intro s hs
    by_cases h : clients = []
    · subst h; simp [broadcast_message]
    · simp [broadcast_message, h, broadcast_targets, hs]
  · intro hs
    by_cases h : clients = []
    · subst h; simp [broadcast_message]
    · simp [broadcast_message, h, broadcast_targets, hs]

/-- Witness for C7 on the scenario of spec section 8: of three registered
clients only client 1 is subscribed to `X`; a bar for `X` reaches client 1
only, and an unfiltered event reaches all three. -/
theorem broadcast_targeted_fanout_witness :
    (broadcast_message [(1, {"X"}), (2, ∅), (3, {"Y"})] (some "X")
        (fun _ => true)).delivered = [1] ∧
    (broadcast_message [(1, {"X"}), (2, ∅), (3, {"Y"})] none
        (fun _ => true)).delivered = [1, 2, 3] :=
  ⟨((broadcast_targeted_fanout [(1, {"X"}), (2, ∅), (3, {"Y"})]
      (some "X")).1 "X" (by decide)).trans (by decide),
   ((broadcast_targeted_fanout [(1, {"X"}), (2, ∅), (3, {"Y"})]
      none).2 rfl).trans (by decide)⟩

/-- C8: the claim says an invalid credential stops the connection manager
immediately without consuming the retry budget. In the code an invalid
credential makes the authorize helper return `False` (HTTP 401 path,
wss_handler.py line 84); `websockets.connect(False, ...)` then raises a
generic exception handled as transient, so every credential failure consumes
one retry and the loop issues all `MAX_RECONNECT_ATTEMPTS = 5` attempts —
more than one — before stopping. -/
theorem invalid_credential_consumes_retry_budget :
    get_market_data_feed_authorize_url (HttpResult.response 401 ⟨none⟩)
      = none ∧
    attemptOutcome
      (get_market_data_feed_authorize_url (HttpResult.response 401 ⟨none⟩))
      AttemptOutcome.apiError = AttemptOutcome.transient ∧
    connLoop 0 (List.replicate MAX_RECONNECT_ATTEMPTS
      (attemptOutcome
        (get_market_data_feed_authorize_url (HttpResult.response 401 ⟨none⟩))
        AttemptOutcome.apiError)) = MAX_RECONNECT_ATTEMPTS ∧
    1 < MAX_RECONNECT_ATTEMPTS := by
  decide

/-- C9: the claim says calling `subscribe_to_symbol` twice with a symbol
resolving to the same instrument key leaves the registry unchanged on the
second call, which reports `false`. In the program every call raises
`TypeError` at wss_handler.py line 179 — `get_instrument_key(symbol)` passes
one argument to the three-parameter function of instrument_loader.py line
90 — before the membership test runs: neither call adds a key, sends
anything, reaches the early-return path, or returns any boolean; both calls
leave the registry untouched and raise. -/
theorem subscribe_twice_raises_type_error
    (connected1 sendOk1 connected2 sendOk2 : Bool)
    (registry : Finset String) (symbol : String) :
    subscribe_to_symbol_run connected1 sendOk1 registry symbol =
      (registry, none,
       .exn "TypeError: get_instrument_key missing 2 required positional arguments") ∧
    subscribe_to_symbol_run connected2 sendOk2
        (subscribe_to_symbol_run connected1 sendOk1 registry symbol).1 symbol =
      (registry, none,
       .exn "TypeError: get_instrument_key missing 2 required positional arguments") ∧
    pyArityOk get_instrument_key_paramCount get_instrument_key_callArgCount
      = false :=
  ⟨rfl, rfl, rfl⟩

/-- C10: the subscription registry is grow-only — every program operation on
`ACTIVE_SUBSCRIPTIONS` preserves the keys already present, and a successful
lookup registers its key regardless of connection state or send outcome (the
add happens before the send is attempted and a failed or skipped send leaves
the key registered). -/
theorem registry_grow_only :
    (∀ (registry : Finset String) (op : RegistryOp),
       registry ⊆ applyOp registry op) ∧
    (∀ (registry : Finset String) (lookup : String → Option String)
        (connected sendOk : Bool) (symbol key : String),
       lookup symbol = some key →
       key ∈ applyOp registry
         (RegistryOp.subscribe lookup connected sendOk symbol)) := by
  constructor
  · intro registry op
    cases op with
    | subscribe lookup connected sendOk symbol =>
      exact subscribe_registry_subset lookup connected sendOk registry symbol
    | connectResubscribe => exact Finset.Subset.refl _
  · intro registry lookup connected sendOk symbol key h
    exact subscribe_registry_mem lookup connected sendOk registry symbol key h

/-- Witness for C10 at a concrete registry, lookup and symbol, with the
connection down and the send failing. -/
theorem registry_grow_only_witness :
    ({"A"} : Finset String) ⊆ applyOp {"A"}
        (RegistryOp.subscribe (fun _ => some "K1") false false "RELIANCE") ∧
    ((fun _ => some "K1") "RELIANCE" = some "K1" : Prop) ∧
    "K1" ∈ applyOp {"A"}
        (RegistryOp.subscribe (fun _ => some "K1") false false "RELIANCE") :=
  ⟨registry_grow_only.1 {"A"} _, rfl,
   registry_grow_only.2 {"A"} _ false false "RELIANCE" "K1" rfl⟩

end TradingApp
